import Mathlib

/-!
Shallow embedding of `examples/visualization/3d_to_2d.py` (MNE-Python example
"How to convert 3D electrode positions to a 2D image").

The script is a straight line of library calls.  We embed its data flow as a
pure function of an environment `Env` that records what each external library
call returns (file contents, the estimated transform, the per-channel effect of
filtering and Hilbert-envelope extraction, the snapshot result, the layout
file).  The operations the script performs on that data — picking channels,
building the montage, applying the transform, stacking the xy points, taking
the per-channel maximum, mapping layout positions to pixels — are translated
from the source line by line.  Side effects (file reads, rendering calls) are
mirrored by an explicit event trace, and a second model in the `Except` monad
captures the script's behaviour when a library call raises.
-/

namespace ThreeD2D

/-- A 3D point with rational coordinates (electrode position). -/
structure Point3 where
  px : ℚ
  py : ℚ
  pz : ℚ
deriving DecidableEq

/-- A 2D point (pixel position in the snapshot image). -/
structure Point2 where
  u : ℚ
  v : ℚ
deriving DecidableEq

/-- Modelled from the spec: the head-to-MRI transform (`mne.coreg.estimate_head_mri_t`
result) is "a coordinate transform aligning sensor-space coordinates with an
anatomical MRI reference frame" — an affine map, a 3×3 linear part plus a
translation. -/
structure Trans where
  r00 : ℚ
  r01 : ℚ
  r02 : ℚ
  r10 : ℚ
  r11 : ℚ
  r12 : ℚ
  r20 : ℚ
  r21 : ℚ
  r22 : ℚ
  tx : ℚ
  ty : ℚ
  tz : ℚ
deriving DecidableEq

/-- Modelled from the spec: `montage.apply_trans(trans)` (library code not under
`src/`) applies the affine coordinate transform to one electrode coordinate. -/
def applyTransPt (t : Trans) (p : Point3) : Point3 :=
  { px := t.r00 * p.px + t.r01 * p.py + t.r02 * p.pz + t.tx
    py := t.r10 * p.px + t.r11 * p.py + t.r12 * p.pz + t.ty
    pz := t.r20 * p.px + t.r21 * p.py + t.r22 * p.pz + t.tz }

/-- One recording channel: its name, its head-space position as stored in the
loaded FIF file, and its signal (time samples). -/
structure Channel where
  name : String
  pos : Point3
  signal : List ℚ
deriving DecidableEq

/-- Modelled from the spec: the `Raw` object returned by `read_raw_fif` — an
ordered list of channels (names, sensor positions, data). -/
structure Raw where
  chs : List Channel
deriving DecidableEq

/-- `raw.ch_names`: channel names in channel order. -/
def Raw.ch_names (r : Raw) : List String := r.chs.map (fun c => c.name)

/-- Modelled from the spec: `raw.pick_channels(names)` keeps exactly the
channels whose name is in `names`, preserving the recording's channel order. -/
def Raw.pick_channels (r : Raw) (names : List String) : Raw :=
  ⟨r.chs.filter (fun c => names.contains c.name)⟩

/-- A montage: "a mapping from recording-channel names to their spatial sensor
positions" (spec glossary), in channel order. -/
structure Montage where
  positions : List (String × Point3)
deriving DecidableEq

/-- Modelled from the spec: `raw.get_montage()` returns the montage of the
recording — each channel's name paired with its position, in channel order. -/
def Raw.get_montage (r : Raw) : Montage :=
  ⟨r.chs.map (fun c => (c.name, c.pos))⟩

/-- Modelled from the spec: `montage.apply_trans(trans)` applies the coordinate
transform to every electrode position, leaving names untouched. -/
def Montage.apply_trans (m : Montage) (t : Trans) : Montage :=
  ⟨m.positions.map (fun nc => (nc.1, applyTransPt t nc.2))⟩

/-- The snapshot image; only its shape matters to the script
(`im.shape[0]` = height, `im.shape[1]` = width). -/
structure Image where
  height : Nat
  width : Nat
deriving DecidableEq

/-- One row of a layout's position array `lt.pos` (x, y, width, height). -/
structure LayoutRow where
  lx : ℚ
  ly : ℚ
  lw : ℚ
  lh : ℚ
deriving DecidableEq

/-- Modelled from the spec: the layout returned by `mne.channels.read_layout`,
a position array with one row per click. -/
structure Layout where
  pos : List LayoutRow
deriving DecidableEq

/-- `raw.load_data()` loads the samples into memory; the logical content of the
recording is unchanged. -/
def Raw.load_data (r : Raw) : Raw := r

/-- Modelled from the spec: `raw.filter(l, h)` band-pass filters every
channel's signal in place, channel by channel; the per-channel effect is the
library function `bp`. -/
def Raw.filterBand (r : Raw) (bp : ℚ → ℚ → List ℚ → List ℚ) (lo hi : ℚ) : Raw :=
  ⟨r.chs.map (fun c => { c with signal := bp lo hi c.signal })⟩

/-- Modelled from the spec: `raw.apply_hilbert(envelope=True)` replaces every
channel's signal by its Hilbert envelope, channel by channel; the per-channel
effect is the library function `he`. -/
def Raw.apply_hilbert (r : Raw) (he : List ℚ → List ℚ) : Raw :=
  ⟨r.chs.map (fun c => { c with signal := he c.signal })⟩

/-- Modelled from the spec: `raw.get_data()` returns the data array, one row
per channel, in `ch_names` order. -/
def Raw.get_data (r : Raw) : List (List ℚ) := r.chs.map (fun c => c.signal)

/-- `np.max` along one row: `None` on an empty row (where NumPy raises), else
the running maximum of the samples. -/
def npMax (l : List ℚ) : Option ℚ :=
  match l with
  | [] => none
  | a :: as => some (as.foldl max a)

/-- Line 52: `[f"G{i}" for i in range(1, 257)]`, the channel list passed to
`pick_channels`. -/
def pickNames : List String := (List.range' 1 256).map (fun i => "G" ++ toString i)

/-- Read the numeric part of a grid-channel name (digits after the leading
`G`); a cheap decidable key used to reason about `pickNames`. -/
def numOf (s : String) : ℕ :=
  (s.data.drop 1).foldl (fun a c => 10 * a + (c.toNat - 48)) 0

/-- `x_pixel = pos_x * image_width` (line 130: `lt.pos[:, 0] * float(im.shape[1])`). -/
def xPixel (p : ℚ) (w : Nat) : ℚ := p * (w : ℚ)

/-- `y_pixel = (1 - pos_y) * image_height` (line 131:
`(1 - lt.pos[:, 1]) * float(im.shape[0])`, flipping the y-position). -/
def yPixel (p : ℚ) (h : Nat) : ℚ := (1 - p) * (h : ℚ)

/-- 3D figure handle returned by `plot_alignment`; opaque to the script. -/
abbrev Fig : Type := Nat

/-- The results of every external library call the script makes, together with
the ambient quantities (a clock, an RNG seed) that a nondeterministic script
could observe but this one never does. -/
structure Env where
  /-- `mne.datasets.misc.data_path()` as a path string. -/
  miscPath : String
  /-- `dirname(mne.__file__)` as a path string. -/
  mneDir : String
  /-- `read_raw_fif`: contents of the FIF file at the given path. -/
  read_raw_fif : String → Raw
  /-- `mne.coreg.estimate_head_mri_t(subject, subjects_dir)`. -/
  estimate_head_mri_t : String → String → Trans
  /-- `plot_alignment(raw.info, trans=trans, ...)` returns a figure. -/
  plot_alignment : Raw → Trans → Fig
  /-- `set_3d_view(figure=fig, azimuth=a, elevation=e)`. -/
  set_3d_view : Fig → ℚ → ℚ → Fig
  /-- `snapshot_brain_montage(fig, montage)` returns the xy dict and the image. -/
  snapshot_brain_montage : Fig → Montage → (String → Point2) × Image
  /-- Per-channel effect of `raw.filter(l_freq, h_freq)`. -/
  bandpass : ℚ → ℚ → List ℚ → List ℚ
  /-- Per-channel effect of `raw.apply_hilbert(envelope=True)`. -/
  hilbert : List ℚ → List ℚ
  /-- `mne.channels.read_layout(path, scale=...)`. -/
  read_layout : String → Bool → Layout
  /-- Ambient wall-clock time; the script never reads it. -/
  clock : Nat
  /-- Ambient randomness; the script never reads it. -/
  rngSeed : Nat

/-- `subjects_dir = misc_path / "ecog"`. -/
def subjectsDir (env : Env) : String := env.miscPath ++ "/ecog"

/-- `ecog_data_fname = subjects_dir / "sample_ecog_ieeg.fif"`. -/
def ecogDataFname (env : Env) : String := subjectsDir env ++ "/sample_ecog_ieeg.fif"

/-- `layout_path / layout_name` = `dirname(mne.__file__)/data/image/custom_layout.lout`. -/
def layoutFname (env : Env) : String := env.mneDir ++ "/data/image/custom_layout.lout"

/-- Everything the script computes that the claims talk about. -/
structure ScriptOut where
  /-- `raw` after `pick_channels` (the state whose montage and data are used). -/
  rawPicked : Raw
  /-- The montage argument passed to `snapshot_brain_montage` (after `apply_trans`). -/
  montageArg : Montage
  /-- The figure passed to `snapshot_brain_montage`. -/
  figUsed : Fig
  /-- The xy dict returned by `snapshot_brain_montage`. -/
  xy : String → Point2
  /-- The image returned by `snapshot_brain_montage`. -/
  im : Image
  /-- `xy_pts = np.vstack([xy[ch] for ch in raw.ch_names])`. -/
  xy_pts : List Point2
  /-- `beta_power` after `.max(axis=1)`, one entry per channel. -/
  beta_power : List (Option ℚ)
  /-- The first scatter call: each point with the color value it is paired with. -/
  scatterPts : List (Point2 × Option ℚ)
  /-- `lt = mne.channels.read_layout(...)`. -/
  lt : Layout
  /-- `x = lt.pos[:, 0] * float(im.shape[1])`. -/
  x : List ℚ
  /-- `y = (1 - lt.pos[:, 1]) * float(im.shape[0])`. -/
  y : List ℚ
  /-- The second scatter call: the (x, y) points. -/
  scatterPts2 : List Point2

/-- The script, line by line.  Each in-place mutation of the Python objects
(`raw.pick_channels`, `montage.apply_trans`, `raw.filter`, ...) becomes a
rebinding of the explicit state. -/
def script (env : Env) : ScriptOut :=
  let raw0 := env.read_raw_fif (ecogDataFname env)
  let raw1 := raw0.pick_channels pickNames
  let montage0 := raw1.get_montage
  let trans := env.estimate_head_mri_t "sample_ecog" (subjectsDir env)
  let montage1 := montage0.apply_trans trans
  let fig0 := env.plot_alignment raw1 trans
  let fig1 := env.set_3d_view fig0 20 80
  let xyim := env.snapshot_brain_montage fig1 montage1
  let xy := xyim.1
  let im := xyim.2
  let xy_pts := raw1.ch_names.map (fun ch => xy ch)
  let raw2 := raw1.load_data
  let raw3 := raw2.filterBand env.bandpass 20 30
  let raw4 := raw3.apply_hilbert env.hilbert
  let beta0 := raw4.get_data
  let beta_power := beta0.map npMax
  let scatterPts := xy_pts.zip beta_power
  let lt := env.read_layout (layoutFname env) false
  let x := lt.pos.map (fun r => xPixel r.lx im.width)
  let y := lt.pos.map (fun r => yPixel r.ly im.height)
  let scatterPts2 := (x.zip y).map (fun p => Point2.mk p.1 p.2)
  { rawPicked := raw1
    montageArg := montage1
    figUsed := fig1
    xy := xy
    im := im
    xy_pts := xy_pts
    beta_power := beta_power
    scatterPts := scatterPts
    lt := lt
    x := x
    y := y
    scatterPts2 := scatterPts2 }

/-!
### The script as the spec describes it

Modelled from the spec: "the script is a linear sequence of library invocations
with no custom logic, algorithms, or state machines".  Each computed value is
written as a direct composition of the library calls that produce it, with no
intermediate state.
-/

/-- Spec view: the picked recording, as one composition. -/
def rawPickedSpec (env : Env) : Raw :=
  (env.read_raw_fif (ecogDataFname env)).pick_channels pickNames

/-- Spec view: the estimated head-to-MRI transform. -/
def transSpec (env : Env) : Trans :=
  env.estimate_head_mri_t "sample_ecog" (subjectsDir env)

/-- Spec view: the transformed montage, as one composition. -/
def montageArgSpec (env : Env) : Montage :=
  ((rawPickedSpec env).get_montage).apply_trans (transSpec env)

/-- Spec view: the 3D figure after `set_3d_view`. -/
def figSpec (env : Env) : Fig :=
  env.set_3d_view (env.plot_alignment (rawPickedSpec env) (transSpec env)) 20 80

/-- Spec view: the snapshot (xy dict and image). -/
def snapshotSpec (env : Env) : (String → Point2) × Image :=
  env.snapshot_brain_montage (figSpec env) (montageArgSpec env)

/-- Spec view: the stacked xy points. -/
def xyPtsSpec (env : Env) : List Point2 :=
  (rawPickedSpec env).ch_names.map (fun ch => (snapshotSpec env).1 ch)

/-- Spec view: beta power, as the composition filter ∘ hilbert ∘ get_data ∘ max. -/
def betaPowerSpec (env : Env) : List (Option ℚ) :=
  ((((rawPickedSpec env).load_data).filterBand env.bandpass 20 30).apply_hilbert
      env.hilbert).get_data.map npMax

/-- Spec view: the layout read from disk. -/
def ltSpec (env : Env) : Layout := env.read_layout (layoutFname env) false

/-- Spec view: layout x pixel coordinates. -/
def xSpec (env : Env) : List ℚ :=
  (ltSpec env).pos.map (fun r => xPixel r.lx (snapshotSpec env).2.width)

/-- Spec view: layout y pixel coordinates. -/
def ySpec (env : Env) : List ℚ :=
  (ltSpec env).pos.map (fun r => yPixel r.ly (snapshotSpec env).2.height)

/-- Modelled from the spec: the whole script as a straight-line composition of
external library calls — no intermediate state, no branching, every field a
plain composition of the calls above. -/
def scriptAsLibraryCalls (env : Env) : ScriptOut :=
  { rawPicked := rawPickedSpec env
    montageArg := montageArgSpec env
    figUsed := figSpec env
    xy := (snapshotSpec env).1
    im := (snapshotSpec env).2
    xy_pts := xyPtsSpec env
    beta_power := betaPowerSpec env
    scatterPts := (xyPtsSpec env).zip (betaPowerSpec env)
    lt := ltSpec env
    x := xSpec env
    y := ySpec env
    scatterPts2 := ((xSpec env).zip (ySpec env)).map (fun p => Point2.mk p.1 p.2) }

/-!
### Observable effects

The script's side effects, in program order: the two file reads, the 3D
rendering, and for each of the two demonstrated workflows an `imshow` of the
brain image followed by a scatter of the points.  The two save calls in the
source (`fig2.savefig(...)`, `lt.save(...)`) are commented out, so the trace
contains no write event.
-/

/-- One observable side effect of the script. -/
inductive Effect where
  /-- A file is read from `path`. -/
  | readFile (path : String) : Effect
  /-- A file is written to `path`. -/
  | writeFile (path : String) : Effect
  /-- The 3D alignment view is rendered (`plot_alignment` / `set_3d_view` /
  `snapshot_brain_montage`). -/
  | show3d : Effect
  /-- An image is drawn (`ax.imshow(im)`). -/
  | showImage (img : Image) : Effect
  /-- A scatterplot of the given points is drawn (`ax.scatter(...)`). -/
  | scatterPlot (pts : List Point2) : Effect
deriving DecidableEq

/-- Is the effect a file write? -/
def Effect.isWrite : Effect → Bool
  | .writeFile _ => true
  | _ => false

/-- Is the effect a scatterplot? -/
def Effect.isScatter : Effect → Bool
  | .scatterPlot _ => true
  | _ => false

/-- The path read by the effect, if it is a read. -/
def Effect.readPath : Effect → Option String
  | .readFile p => some p
  | _ => none

/-- The script's effect trace, in program order: `read_raw_fif` reads the FIF
file, the alignment is rendered, `load_data` reads the samples from the same
FIF file, the first workflow draws the image and scatters the electrode
points, `read_layout` reads the layout file, and the second workflow draws the
image and scatters the layout points.  No write occurs: both save calls are
comments in the source. -/
def scriptTrace (env : Env) : List Effect :=
  [ Effect.readFile (ecogDataFname env),
    Effect.show3d,
    Effect.readFile (ecogDataFname env),
    Effect.showImage (script env).im,
    Effect.scatterPlot (script env).xy_pts,
    Effect.readFile (layoutFname env),
    Effect.showImage (script env).im,
    Effect.scatterPlot (script env).scatterPts2 ]

/-!
### Exceptional behaviour

The script has no `try`/`except`: we model each library call site as possibly
raising, and the script as the corresponding `Except` computation that runs the
call sites in program order.  The outcome of each call site is part of the
environment.
-/

/-- Library exceptions, opaque to the script. -/
abbrev Err := String

/-- The raise/return outcome of every library call site in the script, in
source order. -/
structure CallOutcomes where
  data_path : Except Err Unit
  read_raw_fif : Except Err Unit
  pick_channels : Except Err Unit
  get_montage : Except Err Unit
  estimate_head_mri_t : Except Err Unit
  apply_trans : Except Err Unit
  plot_alignment : Except Err Unit
  set_3d_view : Except Err Unit
  snapshot_brain_montage : Except Err Unit
  vstack : Except Err Unit
  load_data : Except Err Unit
  filterCall : Except Err Unit
  apply_hilbert : Except Err Unit
  get_data : Except Err Unit
  maxCall : Except Err Unit
  subplotsCall : Except Err Unit
  imshowCall : Except Err Unit
  scatterCall : Except Err Unit
  colorbarCall : Except Err Unit
  ylabelCall : Except Err Unit
  axisOffCall : Except Err Unit
  read_layout : Except Err Unit
  subplotsCall2 : Except Err Unit
  imshowCall2 : Except Err Unit
  scatterCall2 : Except Err Unit
  tightLayoutCall : Except Err Unit
  axisOffCall2 : Except Err Unit

/-- The call sites in the order the script executes them. -/
def callList (oc : CallOutcomes) : List (Except Err Unit) :=
  [ oc.data_path, oc.read_raw_fif, oc.pick_channels, oc.get_montage,
    oc.estimate_head_mri_t, oc.apply_trans, oc.plot_alignment, oc.set_3d_view,
    oc.snapshot_brain_montage, oc.vstack, oc.load_data, oc.filterCall,
    oc.apply_hilbert, oc.get_data, oc.maxCall, oc.subplotsCall, oc.imshowCall,
    oc.scatterCall, oc.colorbarCall, oc.ylabelCall, oc.axisOffCall,
    oc.read_layout, oc.subplotsCall2, oc.imshowCall2, oc.scatterCall2,
    oc.tightLayoutCall, oc.axisOffCall2 ]

/-- Run the call sites in order in the `Except` monad, then produce `k`.
There is no handler anywhere: this is the do-chain the script's straight line
denotes. -/
def seqCalls : List (Except Err Unit) → Except Err ScriptOut → Except Err ScriptOut
  | [], k => k
  | c :: cs, k => do
      let _ ← c
      seqCalls cs k

/-- The first exception raised by the call sites, in program order. -/
def firstError : List (Except Err Unit) → Option Err
  | [] => none
  | Except.error e :: _ => some e
  | Except.ok _ :: cs => firstError cs

/-- The script in the `Except` monad: every call site runs in order and the
pure result is the data flow of `script`. -/
def scriptE (env : Env) (oc : CallOutcomes) : Except Err ScriptOut :=
  seqCalls (callList oc) (Except.ok (script env))

/-- The processed signal of one channel, as line 86 computes it: band-pass
filter then Hilbert envelope. -/
def procSig (env : Env) (c : Channel) : List ℚ :=
  env.hilbert (env.bandpass 20 30 c.signal)

/-!
### A concrete demonstration environment, used by the witnesses
-/

/-- A small concrete recording: two grid channels and one channel that is not
on the picked grid. -/
def rawDemo : Raw :=
  ⟨[ ⟨"G1", ⟨1, 2, 3⟩, [1, 5, 2]⟩,
     ⟨"G2", ⟨4, 5, 6⟩, [2, 3, 3]⟩,
     ⟨"EEG1", ⟨0, 0, 0⟩, [9]⟩ ]⟩

/-- A concrete affine transform: identity rotation plus translation (10, 20, 30). -/
def transDemo : Trans :=
  { r00 := 1, r01 := 0, r02 := 0
    r10 := 0, r11 := 1, r12 := 0
    r20 := 0, r21 := 0, r22 := 1
    tx := 10, ty := 20, tz := 30 }

/-- A concrete environment for evaluating the script. -/
def envDemo : Env :=
  { miscPath := "/misc"
    mneDir := "/mne"
    read_raw_fif := fun _ => rawDemo
    estimate_head_mri_t := fun _ _ => transDemo
    plot_alignment := fun _ _ => 0
    set_3d_view := fun f _ _ => f
    snapshot_brain_montage := fun _ _ => (fun _ => ⟨3, 4⟩, ⟨100, 200⟩)
    bandpass := fun _ _ l => l
    hilbert := fun l => l
    read_layout := fun _ _ => ⟨[⟨1/2, 1/4, 1/10, 1/10⟩]⟩
    clock := 0
    rngSeed := 0 }

/-- The first picked channel of the demo recording. -/
def chDemo : Channel := ⟨"G1", ⟨1, 2, 3⟩, [1, 5, 2]⟩

/-- The demo environment with different ambient clock and randomness. -/
def envDemo2 : Env := { envDemo with clock := 5, rngSeed := 7 }

/-!
## Helper lemmas
-/

/-- The running maximum bounds the accumulator and every element, and is the
accumulator or one of the elements. -/
theorem foldl_max_spec (as : List ℚ) (a : ℚ) :
    a ≤ as.foldl max a ∧ (∀ s ∈ as, s ≤ as.foldl max a) ∧
      (as.foldl max a = a ∨ as.foldl max a ∈ as) := by
  induction as generalizing a with
  | nil => simp
  | cons b bs ih =>
    obtain ⟨h1, h2, h3⟩ := ih (max a b)
    refine ⟨le_trans (le_max_left a b) h1, ?_, ?_⟩
    · intro s hs
      rcases List.mem_cons.mp hs with rfl | hs
      · exact le_trans (le_max_right a s) h1
      · exact h2 s hs
    · rcases h3 with h3 | h3
      · rcases max_choice a b with hab | hab
        · left; rw [List.foldl_cons, h3, hab]
        · right; rw [List.foldl_cons, h3, hab]; exact List.mem_cons_self b bs
      · right; exact List.mem_cons_of_mem b h3

/-- When `npMax` returns a value, it bounds every sample and is one of them. -/
theorem npMax_le_and_mem (l : List ℚ) (m : ℚ) (h : npMax l = some m) :
    (∀ s ∈ l, s ≤ m) ∧ m ∈ l := by
  cases l with
  | nil => simp [npMax] at h
  | cons a as =>
    obtain ⟨h1, h2, h3⟩ := foldl_max_spec as a
    have hm : m = as.foldl max a := by simpa [npMax] using h.symm
    subst hm
    constructor
    · intro s hs
      rcases List.mem_cons.mp hs with rfl | hs
      · exact h1
      · exact h2 s hs
    · rcases h3 with h3 | h3
      · rw [h3]; exact List.mem_cons_self a as
      · exact List.mem_cons_of_mem a h3

/-- `npMax` returns a value on every nonempty row. -/
theorem npMax_eq_some_of_ne_nil (l : List ℚ) (h : l ≠ []) :
    ∃ m, npMax l = some m := by
  cases l with
  | nil => exact absurd rfl h
  | cons a as => exact ⟨as.foldl max a, rfl⟩

/-- Two appends whose right parts end in different characters are different
strings. -/
theorem append_ne_of_getLast_ne (a b s t : String) (c d : Char)
    (hs : s.data.getLast? = some c) (ht : t.data.getLast? = some d)
    (hcd : c ≠ d) : a ++ s ≠ b ++ t := by
  intro h
  have hd : (a ++ s).data = (b ++ t).data := by rw [h]
  rw [String.data_append, String.data_append] at hd
  have h1 : (a.data ++ s.data).getLast? = (b.data ++ t.data).getLast? := by rw [hd]
  rw [List.getLast?_append, List.getLast?_append, hs, ht] at h1
  simp at h1
  exact hcd h1

/-- Running a sequence of call sites either returns the first raised exception
unchanged or reaches the continuation. -/
theorem seqCalls_eq (cs : List (Except Err Unit)) (k : Except Err ScriptOut) :
    seqCalls cs k = match firstError cs with
      | some e => Except.error e
      | none => k := by
  induction cs with
  | nil => rfl
  | cons c cs ih =>
    cases c with
    | error e => rfl
    | ok u => simpa [seqCalls, firstError, Except.bind] using ih

set_option maxRecDepth 10000 in
/-- The numeric keys of the picked names are exactly 1 … 256, in order. -/
theorem map_numOf : pickNames.map numOf = List.range' 1 256 := by decide

/-- The beta power the script computes is the channelwise map of `npMax` over
the processed signals of the picked channels. -/
theorem script_beta_power_eq (env : Env) :
    (script env).beta_power =
      (script env).rawPicked.chs.map (fun c => npMax (procSig env c)) := by
  simp [script, Raw.load_data, Raw.filterBand, Raw.apply_hilbert, Raw.get_data,
    List.map_map, procSig, Function.comp]

/-- The stacked xy points are the channelwise map of the snapshot dict over the
picked channel names. -/
theorem script_xy_pts_eq (env : Env) :
    (script env).xy_pts =
      (script env).rawPicked.chs.map (fun c => (script env).xy c.name) := by
  simp [script, Raw.ch_names, List.map_map, Function.comp]

/-!
## The claims
-/

/-- C3: the script's entire computation is extensionally equal to a
straight-line composition of external library calls — every computed value of
`script` coincides with the corresponding direct composition of library calls
in `scriptAsLibraryCalls`, on every environment, so the script has no
conditional branching, no state machine, and no locally implemented non-trivial
operation. -/
theorem script_is_straight_line_composition (env : Env) :
    script env = scriptAsLibraryCalls env := rfl

/-- C4 (amended): the script as written performs no file write at all — the
image-save and layout-save calls appear only inside comments, so the write
events of every execution's trace are empty. -/
theorem script_writes_no_files (env : Env) :
    (scriptTrace env).filter Effect.isWrite = [] := rfl

/-- C4 (counterexample): the claim as stated is false — there is no execution
of the script as written that performs the image write and the layout write,
because no execution performs any file write whatsoever. -/
theorem script_writes_exist_counterexample :
    ¬ ∃ env : Env, ∃ e, e ∈ scriptTrace env ∧ e.isWrite = true := by
  rintro ⟨env, e, he, hw⟩
  simp only [scriptTrace, List.mem_cons, List.not_mem_nil, or_false] at he
  rcases he with rfl | rfl | rfl | rfl | rfl | rfl | rfl | rfl <;>
    simp [Effect.isWrite] at hw

/-- C5: every exception raised by a library call propagates to the script's
caller unchanged — the script in the `Except` monad returns the first raised
library exception as is, and succeeds with the pure data flow when no call
raises; there is no handler that catches, wraps, or transforms an exception. -/
theorem library_errors_propagate_unchanged (env : Env) (oc : CallOutcomes) :
    scriptE env oc = match firstError (callList oc) with
      | some e => Except.error e
      | none => Except.ok (script env) :=
  seqCalls_eq (callList oc) (Except.ok (script env))

/-- C1: before the 3D-to-2D projection the script applies the estimated
head-to-MRI transform to the montage obtained from the raw recording — at each
index the montage passed to `snapshot_brain_montage` carries the corresponding
picked channel's name together with its head-space position from the loaded
file with the transform applied, and the snapshot's xy dict and image are
exactly the result of calling `snapshot_brain_montage` on that montage. -/
theorem montage_transformed_before_snapshot (env : Env) (i : Nat)
    (hi : i < (script env).rawPicked.chs.length) :
    ∃ c : Channel,
      (script env).rawPicked.chs[i]? = some c ∧
      c ∈ (env.read_raw_fif (ecogDataFname env)).chs ∧
      (script env).montageArg.positions[i]? =
        some (c.name,
          applyTransPt (env.estimate_head_mri_t "sample_ecog" (subjectsDir env)) c.pos) ∧
      ((script env).xy, (script env).im) =
        env.snapshot_brain_montage (script env).figUsed (script env).montageArg := by
  have hmap : (script env).montageArg.positions =
      (script env).rawPicked.chs.map (fun c =>
        (c.name,
          applyTransPt (env.estimate_head_mri_t "sample_ecog" (subjectsDir env)) c.pos)) := by
    simp [script, Raw.get_montage, Montage.apply_trans, List.map_map]
  refine ⟨(script env).rawPicked.chs[i], List.getElem?_eq_getElem hi, ?_, ?_, rfl⟩
  · exact List.Sublist.mem (List.getElem_mem hi)
      (show ((script env).rawPicked.chs).Sublist
          (env.read_raw_fif (ecogDataFname env)).chs from List.filter_sublist _)
  · rw [hmap, List.getElem?_map, List.getElem?_eq_getElem hi]
    rfl

/-- C1 witness: the theorem evaluated at the demo environment, channel 0. -/
theorem montage_transformed_before_snapshot_witness :
    0 < (script envDemo).rawPicked.chs.length ∧
    (∃ c : Channel,
      (script envDemo).rawPicked.chs[0]? = some c ∧
      c ∈ (envDemo.read_raw_fif (ecogDataFname envDemo)).chs ∧
      (script envDemo).montageArg.positions[0]? =
        some (c.name,
          applyTransPt (envDemo.estimate_head_mri_t "sample_ecog" (subjectsDir envDemo))
            c.pos) ∧
      ((script envDemo).xy, (script envDemo).im) =
        envDemo.snapshot_brain_montage (script envDemo).figUsed
          (script envDemo).montageArg) :=
  ⟨by decide, montage_transformed_before_snapshot envDemo 0 (by decide)⟩

/-- C2: `beta_power` has exactly one entry per picked channel, and the entry of
channel `i` is the `npMax` of that channel's band-pass-filtered, Hilbert-
enveloped signal — whenever that processed signal is nonempty the entry is a
value that bounds every envelope sample from above and equals at least one of
them. -/
theorem beta_power_channelwise_max (env : Env) :
    (script env).beta_power.length = (script env).rawPicked.chs.length ∧
    ∀ (i : ℕ) (c : Channel), (script env).rawPicked.chs[i]? = some c →
      (script env).beta_power[i]? = some (npMax (procSig env c)) ∧
      (procSig env c ≠ [] → ∃ m, (script env).beta_power[i]? = some (some m) ∧
        (∀ s ∈ procSig env c, s ≤ m) ∧ m ∈ procSig env c) := by
  constructor
  · rw [script_beta_power_eq, List.length_map]
  · intro i c hc
    have h1 : (script env).beta_power[i]? = some (npMax (procSig env c)) := by
      rw [script_beta_power_eq, List.getElem?_map, hc]
      rfl
    refine ⟨h1, fun hne => ?_⟩
    obtain ⟨m, hm⟩ := npMax_eq_some_of_ne_nil _ hne
    obtain ⟨hle, hmem⟩ := npMax_le_and_mem _ _ hm
    refine ⟨m, ?_, hle, hmem⟩
    rw [h1, hm]

/-- C2 witness: the theorem evaluated at the demo environment, channel 0 of the
demo recording, whose processed signal is nonempty. -/
theorem beta_power_channelwise_max_witness :
    (script envDemo).rawPicked.chs[0]? = some chDemo ∧
    (script envDemo).beta_power[0]? = some (npMax (procSig envDemo chDemo)) ∧
    (∃ m, (script envDemo).beta_power[0]? = some (some m) ∧
      (∀ s ∈ procSig envDemo chDemo, s ≤ m) ∧ m ∈ procSig envDemo chDemo) := by
  have hch : (script envDemo).rawPicked.chs[0]? = some chDemo := by decide
  have h := beta_power_channelwise_max envDemo
  exact ⟨hch, (h.2 0 chDemo hch).1, (h.2 0 chDemo hch).2 (by decide)⟩

/-- C6: in every complete execution the script reads exactly two data files —
the sensor-data FIF file and the layout file, which are distinct paths — and in
each of the two demonstrated workflows it renders a scatterplot on top of the
brain image: the trace contains the image draw immediately followed by the
scatter of the electrode points, and the image draw immediately followed by the
scatter of the layout points, and exactly two scatter events in total. -/
theorem script_reads_two_files_and_scatters_twice (env : Env) :
    (∀ p, Effect.readFile p ∈ scriptTrace env ↔
        p = ecogDataFname env ∨ p = layoutFname env) ∧
    ecogDataFname env ≠ layoutFname env ∧
    [Effect.showImage (script env).im, Effect.scatterPlot (script env).xy_pts] <:+:
      scriptTrace env ∧
    [Effect.showImage (script env).im,
      Effect.scatterPlot (script env).scatterPts2] <:+: scriptTrace env ∧
    ((scriptTrace env).filter Effect.isScatter).length = 2 := by
  refine ⟨?_, ?_, ?_, ?_, rfl⟩
  · intro p
    simp only [scriptTrace, List.mem_cons, List.not_mem_nil, or_false]
    constructor
    · rintro (h | h | h | h | h | h | h | h) <;> simp_all
    · rintro (rfl | rfl)
      · exact Or.inl rfl
      · exact Or.inr (Or.inr (Or.inr (Or.inr (Or.inr (Or.inl rfl)))))
  · exact append_ne_of_getLast_ne (subjectsDir env) env.mneDir
      "/sample_ecog_ieeg.fif" "/data/image/custom_layout.lout" 'f' 't'
      (by decide) (by decide) (by decide)
  · exact ⟨[Effect.readFile (ecogDataFname env), Effect.show3d,
      Effect.readFile (ecogDataFname env)],
      [Effect.readFile (layoutFname env), Effect.showImage (script env).im,
        Effect.scatterPlot (script env).scatterPts2], rfl⟩
  · refine ⟨[Effect.readFile (ecogDataFname env), Effect.show3d,
      Effect.readFile (ecogDataFname env), Effect.showImage (script env).im,
      Effect.scatterPlot (script env).xy_pts, Effect.readFile (layoutFname env)],
      [], by simp [scriptTrace]⟩

/-- C6 witness: at the demo environment the FIF file is read and the two paths
are distinct. -/
theorem script_reads_two_files_and_scatters_twice_witness :
    Effect.readFile (ecogDataFname envDemo) ∈ scriptTrace envDemo ∧
    ecogDataFname envDemo ≠ layoutFname envDemo :=
  ⟨((script_reads_two_files_and_scatters_twice envDemo).1 _).mpr (Or.inl rfl),
   (script_reads_two_files_and_scatters_twice envDemo).2.1⟩

/-- C7: the script is deterministic — two executions in which every file read
and every library call return identical values compute identical `beta_power`,
`xy_pts`, `x` and `y`, whatever the ambient clock and randomness are. -/
theorem script_deterministic (e1 e2 : Env)
    (h1 : e1.miscPath = e2.miscPath)
    (h2 : e1.mneDir = e2.mneDir)
    (h3 : e1.read_raw_fif = e2.read_raw_fif)
    (h4 : e1.estimate_head_mri_t = e2.estimate_head_mri_t)
    (h5 : e1.plot_alignment = e2.plot_alignment)
    (h6 : e1.set_3d_view = e2.set_3d_view)
    (h7 : e1.snapshot_brain_montage = e2.snapshot_brain_montage)
    (h8 : e1.bandpass = e2.bandpass)
    (h9 : e1.hilbert = e2.hilbert)
    (h10 : e1.read_layout = e2.read_layout) :
    (script e1).beta_power = (script e2).beta_power ∧
    (script e1).xy_pts = (script e2).xy_pts ∧
    (script e1).x = (script e2).x ∧
    (script e1).y = (script e2).y := by
  rcases e1 with ⟨m1, d1, rr1, es1, pa1, sv1, sb1, bp1, hi1, rl1, c1, rs1⟩
  rcases e2 with ⟨m2, d2, rr2, es2, pa2, sv2, sb2, bp2, hi2, rl2, c2, rs2⟩
  dsimp only at h1 h2 h3 h4 h5 h6 h7 h8 h9 h10
  subst h1 h2 h3 h4 h5 h6 h7 h8 h9 h10
  exact ⟨rfl, rfl, rfl, rfl⟩

/-- C7 witness: the theorem applied to two demo environments that differ only
in clock and RNG seed. -/
theorem script_deterministic_witness :
    (script envDemo).beta_power = (script envDemo2).beta_power ∧
    (script envDemo).xy_pts = (script envDemo2).xy_pts ∧
    (script envDemo).x = (script envDemo2).x ∧
    (script envDemo).y = (script envDemo2).y :=
  script_deterministic envDemo envDemo2 rfl rfl rfl rfl rfl rfl rfl rfl rfl rfl

/-- C8: channel order is preserved between positions and values — at every
index `i` the stacked point is the snapshot position of channel `ch_names[i]`,
and the `i`-th scatter point pairs that very position with the beta-power value
computed from the same channel's signal. -/
theorem channel_order_preserved (env : Env) (i : Nat)
    (hi : i < (script env).rawPicked.chs.length) :
    ∃ c : Channel,
      (script env).rawPicked.chs[i]? = some c ∧
      (script env).rawPicked.ch_names[i]? = some c.name ∧
      (script env).xy_pts[i]? = some ((script env).xy c.name) ∧
      (script env).scatterPts[i]? =
        some ((script env).xy c.name, npMax (procSig env c)) := by
  have hc : (script env).rawPicked.chs[i]? = some ((script env).rawPicked.chs[i]) :=
    List.getElem?_eq_getElem hi
  refine ⟨(script env).rawPicked.chs[i], hc, ?_, ?_, ?_⟩
  · rw [Raw.ch_names, List.getElem?_map, hc]
    rfl
  · rw [script_xy_pts_eq, List.getElem?_map, hc]
    rfl
  · have hz : (script env).scatterPts =
        ((script env).xy_pts).zip (script env).beta_power := rfl
    rw [hz, List.getElem?_zip_eq_some]
    constructor
    · rw [script_xy_pts_eq, List.getElem?_map, hc]
      rfl
    · rw [script_beta_power_eq, List.getElem?_map, hc]
      rfl

/-- C8 witness: the theorem evaluated at the demo environment, channel 1. -/
theorem channel_order_preserved_witness :
    1 < (script envDemo).rawPicked.chs.length ∧
    (∃ c : Channel,
      (script envDemo).rawPicked.chs[1]? = some c ∧
      (script envDemo).rawPicked.ch_names[1]? = some c.name ∧
      (script envDemo).xy_pts[1]? = some ((script envDemo).xy c.name) ∧
      (script envDemo).scatterPts[1]? =
        some ((script envDemo).xy c.name, npMax (procSig envDemo c))) :=
  ⟨by decide, channel_order_preserved envDemo 1 (by decide)⟩

/-- C9: the layout-to-pixel mapping is `x_pixel = pos_x * width` and
`y_pixel = (1 - pos_y) * height`; `x_pixel` is monotonically increasing in
`pos_x`, `y_pixel` is monotonically decreasing in `pos_y`, and positions in
`[0, 1]` land inside `[0, width]` and `[0, height]`. -/
theorem layout_pixel_mapping (env : Env) :
    ((script env).x =
      (script env).lt.pos.map (fun r => xPixel r.lx (script env).im.width)) ∧
    ((script env).y =
      (script env).lt.pos.map (fun r => yPixel r.ly (script env).im.height)) ∧
    (∀ (w : ℕ) (p q : ℚ), p ≤ q → xPixel p w ≤ xPixel q w) ∧
    (∀ (h : ℕ) (p q : ℚ), p ≤ q → yPixel q h ≤ yPixel p h) ∧
    (∀ (w : ℕ) (p : ℚ), 0 ≤ p → p ≤ 1 → 0 ≤ xPixel p w ∧ xPixel p w ≤ (w : ℚ)) ∧
    (∀ (h : ℕ) (p : ℚ), 0 ≤ p → p ≤ 1 → 0 ≤ yPixel p h ∧ yPixel p h ≤ (h : ℚ)) := by
  refine ⟨rfl, rfl, ?_, ?_, ?_, ?_⟩
  · intro w p q hpq
    exact mul_le_mul_of_nonneg_right hpq (Nat.cast_nonneg w)
  · intro h p q hpq
    unfold yPixel
    exact mul_le_mul_of_nonneg_right (by linarith) (Nat.cast_nonneg h)
  · intro w p h0 h1
    refine ⟨mul_nonneg h0 (Nat.cast_nonneg w), ?_⟩
    calc p * (w : ℚ) ≤ 1 * (w : ℚ) := mul_le_mul_of_nonneg_right h1 (Nat.cast_nonneg w)
      _ = (w : ℚ) := one_mul _
  · intro h p h0 h1
    unfold yPixel
    refine ⟨mul_nonneg (by linarith) (Nat.cast_nonneg h), ?_⟩
    calc (1 - p) * (h : ℚ) ≤ 1 * (h : ℚ) :=
          mul_le_mul_of_nonneg_right (by linarith) (Nat.cast_nonneg h)
      _ = (h : ℚ) := one_mul _

/-- C9 witness: the mapping evaluated at concrete positions and shapes. -/
theorem layout_pixel_mapping_witness :
    xPixel (1 / 2) 10 ≤ xPixel (3 / 4) 10 ∧
    yPixel (3 / 4) 20 ≤ yPixel (1 / 2) 20 ∧
    (0 ≤ xPixel (1 / 2) 10 ∧ xPixel (1 / 2) 10 ≤ (10 : ℚ)) ∧
    (0 ≤ yPixel (1 / 2) 20 ∧ yPixel (1 / 2) 20 ≤ (20 : ℚ)) :=
  ⟨(layout_pixel_mapping envDemo).2.2.1 10 (1 / 2) (3 / 4) (by norm_num),
   (layout_pixel_mapping envDemo).2.2.2.1 20 (1 / 2) (3 / 4) (by norm_num),
   (layout_pixel_mapping envDemo).2.2.2.2.1 10 (1 / 2) (by norm_num) (by norm_num),
   (layout_pixel_mapping envDemo).2.2.2.2.2 20 (1 / 2) (by norm_num) (by norm_num)⟩

/-- C10: the channel selection passed to `pick_channels` is exactly the 256
distinct names `G1` … `G256` in increasing numeric order: it has 256 entries,
no duplicates, membership is exactly the names `G k` for `1 ≤ k ≤ 256`, the
`i`-th entry is `G (i+1)`, and neither `G0` nor `G257` occurs. -/
theorem pick_channel_names_exact :
    pickNames.length = 256 ∧
    pickNames.Nodup ∧
    (∀ s : String, s ∈ pickNames ↔ ∃ k : ℕ, 1 ≤ k ∧ k ≤ 256 ∧ s = "G" ++ toString k) ∧
    (∀ i : ℕ, i < 256 → pickNames[i]? = some ("G" ++ toString (i + 1))) ∧
    "G0" ∉ pickNames ∧ "G257" ∉ pickNames := by
  refine ⟨by simp [pickNames],
    List.Nodup.of_map numOf (map_numOf ▸ List.nodup_range' 1 256), ?_, ?_, ?_, ?_⟩
  · intro s
    simp only [pickNames, List.mem_map, List.mem_range'_1]
    constructor
    · rintro ⟨k, ⟨hk1, hk2⟩, rfl⟩
      exact ⟨k, hk1, by omega, rfl⟩
    · rintro ⟨k, hk1, hk2, rfl⟩
      exact ⟨k, ⟨hk1, by omega⟩, rfl⟩
  · intro i hi
    rw [pickNames, List.getElem?_map]
    rw [List.getElem?_eq_getElem (by simpa using hi)]
    simp [List.getElem_range', Nat.add_comm]
  · intro hmem
    have h1 : numOf "G0" ∈ pickNames.map numOf := List.mem_map_of_mem numOf hmem
    rw [map_numOf] at h1
    have h2 := List.mem_range'_1.mp h1
    have h3 : numOf "G0" = 0 := by decide
    omega
  · intro hmem
    have h1 : numOf "G257" ∈ pickNames.map numOf := List.mem_map_of_mem numOf hmem
    rw [map_numOf] at h1
    have h2 := List.mem_range'_1.mp h1
    have h3 : numOf "G257" = 257 := by decide
    omega

/-- C10 witness: `G7` is picked and entry 41 is `G42`. -/
theorem pick_channel_names_exact_witness :
    ("G7" ∈ pickNames) ∧ pickNames[41]? = some ("G" ++ toString (41 + 1)) :=
  ⟨(pick_channel_names_exact.2.2.1 "G7").mpr ⟨7, by norm_num, by norm_num, by decide⟩,
   pick_channel_names_exact.2.2.2.1 41 (by norm_num)⟩

end ThreeD2D
